import Mathlib

/-!
Shallow embedding of `src/sonar_scanner.py` (ChainSonar): a polling scanner
that watches a set of wallet addresses, classifies fetched transactions as
native-ETH or allow-listed token transfers, compares the scaled amount
against a threshold and emits alerts.  Raw on-chain integer values are
modelled as `Nat`, scaled amounts and thresholds as `ℚ` (Python floats do
exact arithmetic on all the small values the claims use), JSON dictionaries
as structures with `Option` fields for optional keys, and the Python `dict`
as an insertion-ordered association list.  The Python `str` methods the
program uses (`lower`, `strip`, `split(',')`, `startswith('#')`, slicing)
are embedded character-by-character over `String.data`, so that every
definition evaluates inside the kernel.
-/

namespace ChainSonar

/-- Python `s.lower()` (the program only ever feeds it ASCII hex addresses,
where it agrees with ASCII lowercasing). -/
def pyLower (s : String) : String :=
  ⟨s.data.map Char.toLower⟩

/-- Python `s.strip()`: remove leading and trailing whitespace. -/
def pyStrip (s : String) : String :=
  ⟨(((s.data.dropWhile Char.isWhitespace).reverse).dropWhile
      Char.isWhitespace).reverse⟩

/-- Python `s.split(',')`. -/
def pySplitComma (s : String) : List String :=
  (s.data.splitOn ',').map fun cs => ⟨cs⟩

/-- Python `s.startswith('#')`. -/
def pyStartsWithHash (s : String) : Bool :=
  match s.data with
  | [] => false
  | c :: _ => c == '#'

/-- A raw transaction record as returned by the explorer API
(`tx` dict in `run`, lines 99-129 of `sonar_scanner.py`).  `tokenSymbol` is
`none` when the `tokenSymbol` key is absent (native-ETH transfer). -/
structure Tx where
  toAddr : String
  fromAddr : String
  value : Nat
  blockNumber : Nat
  hash : String
  tokenSymbol : Option String
  contractAddress : String
deriving Repr, DecidableEq

/-- Per-token metadata from the `WATCHED_TOKENS` dict values. -/
structure TokenInfo where
  symbol : String
  decimals : Nat
deriving Repr, DecidableEq

/-- The `WATCHED_TOKENS` allow-list, lines 17-21: keys are the contract
addresses exactly as written in the source (mixed case). -/
def WATCHED_TOKENS : List (String × TokenInfo) :=
  [("0xC02aaA39b223FE8D0A0e5C4F27eAD9083C756Cc2", ⟨"WETH", 18⟩),
   ("0xA0b86991c6218b36c1d19D4a2e9Eb0cE3606eB48", ⟨"USDC", 6⟩),
   ("0xdAC17F958D2ee523a2206206994597C13D831ec7", ⟨"USDT", 6⟩)]

/-- An emitted alert (the log lines + notification, lines 122-129). -/
structure Alert where
  name : String
  address : String
  amount : ℚ
  symbol : String
  hash : String
deriving Repr, DecidableEq

/-- The threshold comparison of line 121: `if amount >= threshold`. -/
def qualifies (amount threshold : ℚ) : Bool :=
  decide (amount ≥ threshold)

/-- Classification of one record, lines 104-119: compute
(amount, symbol, threshold).  A record without a `tokenSymbol` key is
native ETH (value scaled by 10^18, threshold `eth_threshold`); otherwise the
lowercased `contractAddress` is looked up in `WATCHED_TOKENS`; on a miss the
initial values `(0, "", 0)` of lines 105-107 survive. -/
def classify (ethThreshold stableThreshold : ℚ) (tx : Tx) : ℚ × String × ℚ :=
  match tx.tokenSymbol with
  | none => ((tx.value : ℚ) / 10 ^ 18, "ETH", ethThreshold)
  | some _ =>
    match WATCHED_TOKENS.lookup (pyLower tx.contractAddress) with
    | some info =>
        ((tx.value : ℚ) / 10 ^ info.decimals, info.symbol,
          if info.symbol = "WETH" then ethThreshold else stableThreshold)
    | none => (0, "", 0)

/-- The per-record body of the scan loop, lines 100-129: skip the record
when `tx.toAddr.toLower` differs from the (lowercased) target address key,
otherwise classify and alert when the amount reaches the threshold. -/
def processTx (ethThreshold stableThreshold : ℚ) (address name : String)
    (tx : Tx) : Option Alert :=
  if pyLower tx.toAddr ≠ address then none
  else
    let c := classify ethThreshold stableThreshold tx
    if qualifies c.1 c.2.2 then some ⟨name, address, c.1, c.2.1, tx.hash⟩
    else none

/-- Extraction of the `result` field of an API response, lines 67 and 70:
`.get('result', [])` followed by `or []` turns an absent or null `result`
into the empty list. -/
def resultOrEmpty (r : Option (List Tx)) : List Tx :=
  r.getD []

/-- `fetch_transactions`, lines 55-72, as a function of the two decoded API
responses: the native-transfer list followed by the token-transfer list. -/
def fetch_transactions (ethResp tokenResp : Option (List Tx)) : List Tx :=
  resultOrEmpty ethResp ++ resultOrEmpty tokenResp

/-- The request parameters built in `fetch_transactions`, lines 58-66
(minus the API key).  `startblock` is the stored watermark itself
(`self.last_seen_block[address]`), `none` when never set. -/
structure ApiParams where
  module : String
  action : String
  address : String
  startblock : Option Nat
  endblock : String
  sort : String
deriving Repr, DecidableEq

/-- Parameters of the native-transfer call (`action = txlist`). -/
def txlistParams (address : String) (lastSeen : Option Nat) : ApiParams :=
  ⟨"account", "txlist", address, lastSeen, "99999999", "desc"⟩

/-- Parameters of the token-transfer call (`action = tokentx`, line 69). -/
def tokentxParams (address : String) (lastSeen : Option Nat) : ApiParams :=
  { txlistParams address lastSeen with action := "tokentx" }

/-- The watermark update of lines 93-97: an empty fetch leaves
`last_seen_block` untouched (`continue`), otherwise it becomes the block
number of the first returned record. -/
def stepWatermark (txs : List Tx) (w : Option Nat) : Option Nat :=
  match txs with
  | [] => w
  | t :: _ => some t.blockNumber

/-- The whole per-target iteration of `run`, lines 92-129, as a function of
the fetched records: the new watermark and the alerts emitted. -/
def scanTarget (ethThreshold stableThreshold : ℚ) (address name : String)
    (txs : List Tx) (w : Option Nat) : Option Nat × List Alert :=
  match txs with
  | [] => (w, [])
  | t :: ts =>
      (some t.blockNumber,
        (t :: ts).filterMap (processTx ethThreshold stableThreshold address name))

/-- `n` scan cycles for a single target, each fetching with the current
watermark as `startblock` and updating the watermark as lines 93-97 do.
`fetch` abstracts `fetch_transactions` as a function of `startblock`. -/
def runCycles (fetch : Option Nat → List Tx) : Nat → Option Nat → Option Nat
  | 0, w => w
  | n + 1, w => runCycles fetch n (stepWatermark (fetch w) w)

/-- Python `dict` assignment `d[k] = v` on an insertion-ordered association
list: replace the value at an existing key in place, otherwise append. -/
def dictInsert {α : Type} (k : String) (v : α) :
    List (String × α) → List (String × α)
  | [] => [(k, v)]
  | p :: tl => if p.1 = k then (k, v) :: tl else p :: dictInsert k v tl

/-- The default display name of line 44: `address[:6] + '...' + address[-4:]`
(Python slices, so shorter addresses keep all their characters). -/
def truncName (address : String) : String :=
  (⟨address.data.take 6⟩ : String) ++ "..." ++
    (⟨address.data.drop (address.data.length - 4)⟩ : String)

/-- Parsing of one non-skipped line of `whales.txt`, lines 42-44: split on
`,`, strip each part; the address is the first part lowercased, the name the
second part when present, otherwise the truncated address.  `splitOn` never
returns `[]`, so the first arm is unreachable. -/
def parseLine (line : String) : String × String :=
  match (pySplitComma line).map pyStrip with
  | [] => ("", "")
  | [a] => (pyLower a, truncName (pyLower a))
  | a :: n :: _ => (pyLower a, n)

/-- The skip condition of line 40: blank (whitespace-only) lines and lines
whose raw text starts with `#`. -/
def skipLine (line : String) : Bool :=
  decide (pyStrip line = "") || pyStartsWithHash line

/-- One iteration of the `load_targets` reading loop, lines 39-46, acting on
the registry built so far. -/
def loadStep (tgts : List (String × String)) (line : String) :
    List (String × String) :=
  if skipLine line then tgts
  else dictInsert (parseLine line).1 (parseLine line).2 tgts

/-- `load_targets`, lines 34-50, as a function of the file's lines: the
registry mapping lowercased address to display name. -/
def load_targets (lines : List String) : List (String × String) :=
  lines.foldl loadStep []

/-- Outcome of program startup: either the process terminates with an exit
status before the scan loop, or it enters `run`'s infinite loop. -/
inductive StartupOutcome where
  | exitCode : Nat → StartupOutcome
  | entersLoop : StartupOutcome
deriving Repr, DecidableEq

/-- The startup path of `__main__` (lines 144-148) together with
`__init__` (lines 24-32) and `load_targets` (lines 51-53): a missing API key
raises `EnvironmentError`, which `__main__` catches and only prints, so the
script falls off the end and the process exits with status 0; a missing or
empty `whales.txt` reaches `sys.exit(1)` inside `load_targets` (the raised
`SystemExit` is not caught by the `except (ValueError, EnvironmentError)`
clause); otherwise `run` is entered.  `whalesFile` is `none` when the file
is missing. -/
def mainStartup (apiKeyPresent : Bool) (whalesFile : Option (List String)) :
    StartupOutcome :=
  if apiKeyPresent then
    match whalesFile with
    | none => StartupOutcome.exitCode 1
    | some lines =>
        if load_targets lines = [] then StartupOutcome.exitCode 1
        else StartupOutcome.entersLoop
  else StartupOutcome.exitCode 0

/-- One full cycle of `run`'s target loop, lines 91-131, with each target's
fetch outcome supplied (`Except.error` = an exception raised by
`fetch_transactions`: network failure or non-JSON response).  The loop body
has no try/except — the only handler around the loop is for
`KeyboardInterrupt` (line 133) — so an exception propagates immediately:
the remaining targets of the cycle are not processed and the scanner stops.
On success it mirrors lines 92-129: skip empty fetches, otherwise update
`last_seen_block` and collect the alerts. -/
def runCycleExc (ethThreshold stableThreshold : ℚ) :
    List ((String × String) × Except String (List Tx)) →
    List (String × Option Nat) →
    Except String (List (String × Option Nat) × List Alert)
  | [], st => Except.ok (st, [])
  | ((address, name), fetched) :: rest, st =>
    match fetched with
    | Except.error e => Except.error e
    | Except.ok txs =>
      match txs with
      | [] => runCycleExc ethThreshold stableThreshold rest st
      | t :: ts =>
        match runCycleExc ethThreshold stableThreshold rest
            (dictInsert address (some t.blockNumber) st) with
        | Except.error e => Except.error e
        | Except.ok (stFinal, alerts) =>
          Except.ok (stFinal,
            ((t :: ts).filterMap
                (processTx ethThreshold stableThreshold address name)) ++ alerts)

/-- Concrete fixture: an incoming transfer of a token whose contract address
is not on the allow-list. -/
def txUnwatched : Tx :=
  ⟨"0xABC", "0xsender", 999999999999, 100, "0xh1", some "SCAM",
    "0xdeadbeef00000000000000000000000000000000"⟩

/-- Concrete fixture: an incoming USDC transfer of 25 USDC (raw value
`25000000`, 6 decimals), carrying the exact contract address spelled in
`WATCHED_TOKENS`. -/
def txUsdc : Tx :=
  ⟨"0xABC", "0xsender", 25000000, 101, "0xh2", some "USDC",
    "0xA0b86991c6218b36c1d19D4a2e9Eb0cE3606eB48"⟩

/-- Concrete fixture: a large native transfer whose recipient is not the
scanned target. -/
def txC7 : Tx :=
  ⟨"0xDEF", "0xsender", 50000000000000000000, 123, "0xh7", none, ""⟩

/-- Concrete fixture: a large incoming native transfer to `0xbbb`. -/
def txBigNative : Tx :=
  ⟨"0xbbb", "0xsender", 20000000000000000000, 50, "0xh4", none, ""⟩

/-- Concrete fetch function for the watermark witness: always returns one
record, one block above the requested start block. -/
def fetchW : Option Nat → List Tx :=
  fun w => [⟨"0x", "0x", 0, w.getD 0 + 1, "0xh", none, ""⟩]

/-- Concrete fixture: a qualifying native transfer of 20 ETH to the whale
address, sitting at block 100. -/
def whaleTx : Tx :=
  ⟨"0xwhale", "0xsender", 20000000000000000000, 100, "0xhash1", none, ""⟩

/-- A mock chain holding only `whaleTx`. -/
def mockChain : List Tx := [whaleTx]

/-- A mock explorer API over `mockChain`, honouring the documented
inclusive `startblock` semantics: return every record at or above the
requested start block (genesis when unset). -/
def mockFetch (w : Option Nat) : List Tx :=
  mockChain.filter (fun t => decide (w.getD 0 ≤ t.blockNumber))

/-- The alert the whale scenario produces. -/
def whaleAlert : Alert := ⟨"Whale1", "0xwhale", 20, "ETH", "0xhash1"⟩

/-- Claim C6: the threshold comparison of line 121 is inclusive — a
transaction qualifies for an alert exactly when amount ≥ threshold, and an
amount exactly equal to the threshold qualifies. -/
theorem c6_threshold_inclusive (amount threshold : ℚ) :
    (qualifies amount threshold = true ↔ threshold ≤ amount) ∧
    qualifies threshold threshold = true := by
  constructor
  · simp [qualifies, ge_iff_le]
  · simp [qualifies]

/-- Claim C8: when both API responses carry an absent or null `result`
field, `fetch_transactions` returns the empty list rather than an error, and
the per-target scan step then leaves the watermark unchanged and emits no
alert. -/
theorem c8_null_result_empty_skip (ethThreshold stableThreshold : ℚ)
    (address name : String) (w : Option Nat) :
    fetch_transactions none none = [] ∧
    scanTarget ethThreshold stableThreshold address name
      (fetch_transactions none none) w = (w, []) := by
  constructor
  · rfl
  · rfl

/-- Looking up a key right after a `dictInsert` of that key yields the
inserted value. -/
theorem lookup_dictInsert {α : Type} (d : List (String × α)) (k : String)
    (v : α) : (dictInsert k v d).lookup k = some v := by
  induction d with
  | nil => simp [dictInsert, List.lookup]
  | cons p tl ih =>
    obtain ⟨pk, pv⟩ := p
    by_cases h : pk = k
    · simp [dictInsert, h, List.lookup]
    · have h2 : (k == pk) = false := by simp [Ne.symm h]
      simp [dictInsert, h, List.lookup, h2, ih]

/-- `dictInsert` grows the list by one entry exactly when the key is
fresh. -/
theorem length_dictInsert {α : Type} (d : List (String × α)) (k : String)
    (v : α) :
    (dictInsert k v d).length
      = if (d.lookup k).isSome then d.length else d.length + 1 := by
  induction d with
  | nil => simp [dictInsert, List.lookup]
  | cons p tl ih =>
    obtain ⟨pk, pv⟩ := p
    by_cases h : pk = k
    · simp [dictInsert, h, List.lookup]
    · have h2 : (k == pk) = false := by simp [Ne.symm h]
      simp [dictInsert, h, List.lookup, h2, ih]
      rcases hl : tl.lookup k with _ | x <;> simp [hl, h2]

/-- Claim C1 (code bug): an incoming transfer of a token whose contract
address is not on the allow-list is not ignored — the placeholder values
`amount = 0, threshold = 0` of lines 105-107 survive the failed lookup, the
inclusive comparison `0 >= 0` of line 121 holds, and an alert with amount 0
and an empty symbol is emitted, contradicting the claim that no alert is
emitted. -/
theorem c1_unwatched_token_alerts :
    WATCHED_TOKENS.lookup (pyLower txUnwatched.contractAddress) = none ∧
    processTx 10 20000 "0xabc" "Whale" txUnwatched
      = some ⟨"Whale", "0xabc", 0, "", "0xh1"⟩ := by
  constructor
  · decide
  · decide

/-- Claim C2 (code bug): the `WATCHED_TOKENS` keys are written in mixed
case while line 114 lowercases the record's contract address before the
lookup, so no token — not even one carrying the exact USDC address from the
allow-list — ever matches: the lookup misses for the lowercased form of
every key, and the USDC record of the claim produces the zero-amount
empty-symbol alert instead of amount 25 with symbol USDC. -/
theorem c2_usdc_never_matches :
    WATCHED_TOKENS.lookup (pyLower txUsdc.contractAddress) = none ∧
    WATCHED_TOKENS.map (fun p => WATCHED_TOKENS.lookup (pyLower p.1))
      = [none, none, none] ∧
    processTx 10 20000 "0xabc" "Whale" txUsdc
      = some ⟨"Whale", "0xabc", 0, "", "0xh2"⟩ ∧
    ((25000000 : ℚ) / 10 ^ 6 = 25) := by
  refine ⟨by decide, by decide, by decide, by norm_num⟩

/-- Claim C3: under the precondition that every fetch started at a stored
watermark returns only records at or above that block, sorted descending,
the per-target watermark, once set, never decreases across any number of
scan cycles. -/
theorem c3_watermark_monotone (fetch : Option Nat → List Tx)
    (hge : ∀ w : Nat, ∀ t ∈ fetch (some w), w ≤ t.blockNumber)
    (_hsorted : ∀ s : Option Nat,
      (fetch s).Pairwise (fun a b => b.blockNumber ≤ a.blockNumber))
    (n w : Nat) :
    ∃ v, runCycles fetch n (some w) = some v ∧ w ≤ v := by
  induction n generalizing w with
  | zero => exact ⟨w, rfl, le_refl w⟩
  | succ n ih =>
    have hstep : runCycles fetch (n + 1) (some w)
        = runCycles fetch n (stepWatermark (fetch (some w)) (some w)) := rfl
    cases hf : fetch (some w) with
    | nil =>
      rw [hstep, hf]
      exact ih w
    | cons t ts =>
      have hw : w ≤ t.blockNumber := by
        exact hge w t (by rw [hf]; exact List.mem_cons_self t ts)
      obtain ⟨v, hv, hle⟩ := ih t.blockNumber
      refine ⟨v, ?_, le_trans hw hle⟩
      rw [hstep, hf]
      exact hv

/-- Witness for C3 at a concrete fetch function and concrete cycle count. -/
theorem c3_watermark_monotone_witness :
    (∀ w : Nat, ∀ t ∈ fetchW (some w), w ≤ t.blockNumber) ∧
    (∀ s : Option Nat,
      (fetchW s).Pairwise (fun a b => b.blockNumber ≤ a.blockNumber)) ∧
    ∃ v, runCycles fetchW 3 (some 5) = some v ∧ 5 ≤ v := by
  have h1 : ∀ w : Nat, ∀ t ∈ fetchW (some w), w ≤ t.blockNumber := by
    intro w t ht
    simp [fetchW] at ht
    subst ht
    simp
  have h2 : ∀ s : Option Nat,
      (fetchW s).Pairwise (fun a b => b.blockNumber ≤ a.blockNumber) := by
    intro s
    simp [fetchW]
  exact ⟨h1, h2, c3_watermark_monotone fetchW h1 h2 3 5⟩

/-- Claim C4 (code bug): a fetch failure for one target is not confined to
that target — the loop body of `run` has no exception handler, so the error
propagates and the remaining targets of the cycle are never processed; had
the first fetch merely returned no records, the second target would have
been scanned and alerted. -/
theorem c4_fetch_failure_aborts_cycle :
    runCycleExc 10 20000
        [(("0xaaa", "A"), Except.error "ConnectionError"),
         (("0xbbb", "B"), Except.ok [txBigNative])]
        [("0xaaa", none), ("0xbbb", none)]
      = Except.error "ConnectionError" ∧
    runCycleExc 10 20000
        [(("0xaaa", "A"), Except.ok []),
         (("0xbbb", "B"), Except.ok [txBigNative])]
        [("0xaaa", none), ("0xbbb", none)]
      = Except.ok ([("0xaaa", none), ("0xbbb", some 50)],
          [⟨"B", "0xbbb", 20, "ETH", "0xh4"⟩]) := by
  constructor
  · rfl
  · with_unfolding_all rfl

/-- Counterexample to claim C5: with the API key absent and a perfectly
valid address file, startup terminates with exit status 0 — the
`EnvironmentError` is caught by `__main__`, printed, and the script ends
normally — so this configuration failure does not exit with a non-zero
status. -/
theorem c5_counterexample :
    mainStartup false (some ["0xabc123,Whale"]) = StartupOutcome.exitCode 0 ∧
    ¬ ∃ c : Nat, c ≠ 0 ∧
      mainStartup false (some ["0xabc123,Whale"]) = StartupOutcome.exitCode c := by
  constructor
  · rfl
  · rintro ⟨c, hc, he⟩
    have h0 : mainStartup false (some ["0xabc123,Whale"])
        = StartupOutcome.exitCode 0 := rfl
    rw [h0] at he
    exact hc (StartupOutcome.exitCode.inj he).symm

/-- Claim C5 as amended: a missing or empty address file exits with status 1
before the scan loop, but a missing API key is caught at top level and the
process exits with status 0. -/
theorem c5_startup_exit_codes :
    mainStartup true none = StartupOutcome.exitCode 1 ∧
    (∀ lines, load_targets lines = [] →
        mainStartup true (some lines) = StartupOutcome.exitCode 1) ∧
    (∀ w, mainStartup false w = StartupOutcome.exitCode 0) := by
  refine ⟨rfl, ?_, fun w => rfl⟩
  intro lines h
  simp [mainStartup, h]

/-- Witness for the amended C5 at concrete startup configurations. -/
theorem c5_startup_exit_codes_witness :
    load_targets ["# comment"] = [] ∧
    mainStartup true (some ["# comment"]) = StartupOutcome.exitCode 1 ∧
    mainStartup false none = StartupOutcome.exitCode 0 :=
  ⟨by decide, c5_startup_exit_codes.2.1 ["# comment"] (by decide),
    c5_startup_exit_codes.2.2 none⟩

/-- Claim C7: a record whose `to` address differs from the target's address
under case-insensitive comparison is skipped by line 101 and emits no alert;
the target address is lowercase-normalized by `load_targets` (line 43),
which the first hypothesis records. -/
theorem c7_outgoing_ignored (ethThreshold stableThreshold : ℚ)
    (address name : String) (tx : Tx)
    (hnorm : pyLower address = address)
    (hne : pyLower tx.toAddr ≠ pyLower address) :
    processTx ethThreshold stableThreshold address name tx = none := by
  rw [hnorm] at hne
  simp only [processTx]
  rw [if_pos hne]

/-- Witness for C7: a 50-ETH transfer to an unrelated recipient produces no
alert for the watched target. -/
theorem c7_outgoing_ignored_witness :
    pyLower "0xabc" = "0xabc" ∧
    pyLower txC7.toAddr ≠ pyLower "0xabc" ∧
    processTx 10 20000 "0xabc" "Whale" txC7 = none :=
  ⟨by decide, by decide,
    c7_outgoing_ignored 10 20000 "0xabc" "Whale" txC7 (by decide) (by decide)⟩

/-- Claim C9: loading the registry skips blank lines and `#`-lines; every
other line contributes exactly one entry whose address is the first
comma-separated field trimmed and lowercased and whose name is the second
trimmed field when present, otherwise first 6 + "..." + last 4 characters of
the address; inserting adds a new entry only for a fresh address, and a
later line with the same address silently overwrites the earlier entry. -/
theorem c9_load_targets_parse
    (line l1 l2 : String) (tgts : List (String × String))
    (k v : String) (d : List (String × String)) :
    (pyStrip line = "" ∨ pyStartsWithHash line = true →
        loadStep tgts line = tgts) ∧
    (pyStrip line ≠ "" → pyStartsWithHash line = false →
        loadStep tgts line = dictInsert (parseLine line).1 (parseLine line).2 tgts) ∧
    (parseLine line).1 = pyLower (pyStrip ((pySplitComma line).headD "")) ∧
    (∀ a n r, pySplitComma line = a :: n :: r → (parseLine line).2 = pyStrip n) ∧
    (∀ a, pySplitComma line = [a] →
        (parseLine line).2 =
          (⟨(pyLower (pyStrip a)).data.take 6⟩ : String) ++ "..." ++
            (⟨(pyLower (pyStrip a)).data.drop
                ((pyLower (pyStrip a)).data.length - 4)⟩ : String)) ∧
    (dictInsert k v d).length
      = (if (d.lookup k).isSome then d.length else d.length + 1) ∧
    (dictInsert k v d).lookup k = some v ∧
    (skipLine l1 = false → skipLine l2 = false →
        (parseLine l1).1 = (parseLine l2).1 →
        (load_targets [l1, l2]).lookup (parseLine l1).1
          = some (parseLine l2).2) := by
  refine ⟨?_, ?_, ?_, ?_, ?_, length_dictInsert d k v, lookup_dictInsert d k v, ?_⟩
  · intro h
    rcases h with h | h <;> simp [loadStep, skipLine, h]
  · intro h1 h2
    simp [loadStep, skipLine, h1, h2]
  · rcases h : pySplitComma line with _ | ⟨a, _ | ⟨n, r⟩⟩ <;>
      simp [parseLine, h, pyStrip, pyLower]
  · intro a n r h
    simp [parseLine, h]
  · intro a h
    simp [parseLine, truncName, h]
  · intro h1 h2 heq
    simp only [load_targets, List.foldl_cons, List.foldl_nil, loadStep, h1,
      h2, Bool.false_eq_true, if_false]
    rw [heq]
    exact lookup_dictInsert _ _ _

/-- Witness for C9 at concrete lines: a comment line is skipped, a
two-field line yields its explicit name, a single-field line yields the
truncated name, and a duplicated address is overwritten by the later
line. -/
theorem c9_load_targets_parse_witness :
    loadStep [] "# note" = [] ∧
    (pyStrip "0xAbC,Alice" ≠ "" ∧ pyStartsWithHash "0xAbC,Alice" = false ∧
      loadStep [] "0xAbC,Alice"
        = dictInsert (parseLine "0xAbC,Alice").1 (parseLine "0xAbC,Alice").2 []) ∧
    (parseLine "0xAbC,Alice").2 = "Alice" ∧
    (parseLine " 0xAbCdEf123 ").2 = "0xabcd...f123" ∧
    (skipLine "0xAbC,Alice" = false ∧ skipLine "0xabc,Bob" = false ∧
      (parseLine "0xAbC,Alice").1 = (parseLine "0xabc,Bob").1 ∧
      (load_targets ["0xAbC,Alice", "0xabc,Bob"]).lookup
          (parseLine "0xAbC,Alice").1 = some (parseLine "0xabc,Bob").2) := by
  refine ⟨?_, ⟨by decide, by decide, ?_⟩, ?_, ?_, by decide, by decide, by decide, ?_⟩
  · exact (c9_load_targets_parse "# note" "" "" [] "" "" []).1 (Or.inr (by decide))
  · exact (c9_load_targets_parse "0xAbC,Alice" "" "" [] "" "" []).2.1
      (by decide) (by decide)
  · have h := (c9_load_targets_parse "0xAbC,Alice" "" "" [] "" "" []).2.2.2.1
      "0xAbC" "Alice" [] (by decide)
    rw [h]
    decide
  · have h := (c9_load_targets_parse " 0xAbCdEf123 " "" "" [] "" "" []).2.2.2.2.1
      " 0xAbCdEf123 " (by decide)
    rw [h]
    decide
  · exact (c9_load_targets_parse "" "0xAbC,Alice" "0xabc,Bob" [] "" "" []).2.2.2.2.2.2.2
      (by decide) (by decide) (by decide)

/-- Claim C10 (implicit): `fetch_transactions` sends `startblock` equal to
the stored watermark itself — not watermark + 1 — so against the API's
inclusive `startblock` semantics the record sitting exactly at the watermark
block is fetched again, and a qualifying transaction at that block produces
the same alert in two consecutive cycles. -/
theorem c10_inclusive_startblock_duplicate_alert :
    (∀ (a : String) (w : Option Nat),
        (txlistParams a w).startblock = w ∧ (tokentxParams a w).startblock = w) ∧
    (txlistParams "0xwhale" (some 7)).startblock ≠ some 8 ∧
    whaleTx ∈ mockFetch (some whaleTx.blockNumber) ∧
    scanTarget 10 20000 "0xwhale" "Whale1" (mockFetch none) none
      = (some 100, [whaleAlert]) ∧
    scanTarget 10 20000 "0xwhale" "Whale1" (mockFetch (some 100)) (some 100)
      = (some 100, [whaleAlert]) := by
  refine ⟨fun a w => ⟨rfl, rfl⟩, by decide, by decide,
    by with_unfolding_all rfl, by with_unfolding_all rfl⟩

end ChainSonar
